import Mathlib

/-!
Shallow embedding of a fragment of the edx-platform repository:
user account API (`user_api/api/account.py`), profile API
(`user_api/api/profile.py`), commerce purchase view
(`lms/djangoapps/commerce/views.py`), profile-image validation
(`profile_images/views.py`) and the language-preference middleware
(`lang_pref/middleware.py`).

Python exceptions are modelled with `Except`; Django/ORM behaviour that is
not part of the repository slice (validators, model saves, key generation)
is modelled explicitly, marked in the doc comments.
-/

namespace AccountApi

/-- `USERNAME_MIN_LENGTH` in account.py. -/
def USERNAME_MIN_LENGTH : Nat := 2
/-- `USERNAME_MAX_LENGTH` in account.py. -/
def USERNAME_MAX_LENGTH : Nat := 30
/-- `EMAIL_MIN_LENGTH` in account.py. -/
def EMAIL_MIN_LENGTH : Nat := 3
/-- `EMAIL_MAX_LENGTH` in account.py. -/
def EMAIL_MAX_LENGTH : Nat := 254
/-- `PASSWORD_MIN_LENGTH` in account.py. -/
def PASSWORD_MIN_LENGTH : Nat := 2
/-- `PASSWORD_MAX_LENGTH` in account.py. -/
def PASSWORD_MAX_LENGTH : Nat := 75

/-- The exception types raised by the account API (account.py). -/
inductive AccountError where
  | usernameInvalid (msg : String)
  | passwordInvalid (msg : String)
  | emailInvalid (msg : String)
  | userAlreadyExists
  | notAuthorized
  deriving Repr, DecidableEq

/-- A character accepted by Django's `validate_slug` (regex `[-a-zA-Z0-9_]`).
Django is an external collaborator; its slug validator is modelled here. -/
def slugChar (c : Char) : Bool :=
  ('A' ≤ c && c ≤ 'Z') || ('a' ≤ c && c ≤ 'z') || ('0' ≤ c && c ≤ '9') ||
    c == '-' || c == '_'

/-- Django's `validate_slug`: the string matches `^[-a-zA-Z0-9_]+$`.
Modelled from Django (external collaborator of this repository slice). -/
def djangoValidateSlug (s : String) : Bool :=
  s.length > 0 && s.data.all slugChar

/-- `_validate_username` (account.py lines 260-295).  Inputs are Lean strings,
so the Python `isinstance(username, basestring)` check always passes. -/
def validate_username (username : String) : Except AccountError Unit :=
  if username.length < USERNAME_MIN_LENGTH then
    .error (.usernameInvalid "too short")
  else if username.length > USERNAME_MAX_LENGTH then
    .error (.usernameInvalid "too long")
  else if !djangoValidateSlug username then
    .error (.usernameInvalid "must contain only A-Z, a-z, 0-9, -, or _ characters")
  else
    .ok ()

/-- `_validate_password` (account.py lines 298-333): length bounds are checked
first, then equality with the username. -/
def validate_password (password username : String) : Except AccountError Unit :=
  if password.length < PASSWORD_MIN_LENGTH then
    .error (.passwordInvalid "too short")
  else if password.length > PASSWORD_MAX_LENGTH then
    .error (.passwordInvalid "too long")
  else if password == username then
    .error (.passwordInvalid "Password cannot be the same as the username")
  else
    .ok ()

/-- `_validate_email` (account.py lines 336-373).  Django's RFC e-mail format
validator is an external collaborator, passed in as the oracle `emailFmtOk`. -/
def validate_email (emailFmtOk : String → Bool) (email : String) :
    Except AccountError Unit :=
  if email.length < EMAIL_MIN_LENGTH then
    .error (.emailInvalid "too short")
  else if email.length > EMAIL_MAX_LENGTH then
    .error (.emailInvalid "too long")
  else if !emailFmtOk email then
    .error (.emailInvalid "format is not valid")
  else
    .ok ()

/-- A row of the user store (Django `User` model, external to this slice):
username, email, password hash and the `is_active` flag. -/
structure UserRec where
  username : String
  email : String
  passwordHash : String
  isActive : Bool
  deriving Repr, DecidableEq

/-- A `Registration` row: it links an activation key to a user.
Modelled from the spec: `Registration` is one-to-one with Account and holds a
single-use opaque `activation_key` (the model class is not in the slice). -/
structure RegRec where
  username : String
  activationKey : String
  deriving Repr, DecidableEq

/-- The persistent store behind the account API: users, registrations,
profiles (by username), and a nonce feeding activation-key generation. -/
structure AccountState where
  users : List UserRec
  registrations : List RegRec
  profiles : List String
  keyNonce : Nat
  deriving Repr, DecidableEq

/-- `User.set_password` stores a hash of the password.  Hashing is done by
Django (external); modelled as an injective tagging of the password. -/
def hashPassword (password : String) : String := "hash:" ++ password

/-- Activation-key generation inside `Registration.register`.
Modelled from the spec: the key is an opaque single-use token produced from a
fresh random source; here a nonce drawn from the state. -/
def genActivationKey (nonce : Nat) : String := "key-" ++ toString nonce

/-- `create_account` (account.py lines 83-145): validate username, password,
email in that order; save the user (`IntegrityError` when the username or
email is already taken, per the spec's uniqueness model, raised as
`AccountUserAlreadyExists`); create a `Registration` and an empty
`UserProfile`; return the activation key. -/
def create_account (emailFmtOk : String → Bool) (st : AccountState)
    (username password email : String) :
    Except AccountError (String × AccountState) := do
  validate_username username
  validate_password password username
  validate_email emailFmtOk email
  if st.users.any (fun u => u.username == username || u.email == email) then
    throw .userAlreadyExists
  let user : UserRec :=
    { username := username, email := email,
      passwordHash := hashPassword password, isActive := false }
  let key := genActivationKey st.keyNonce
  let st' : AccountState :=
    { users := user :: st.users,
      registrations := { username := username, activationKey := key } :: st.registrations,
      profiles := username :: st.profiles,
      keyNonce := st.keyNonce + 1 }
  return (key, st')

/-- `activate_account` (account.py lines 200-220): look the registration up by
key, raise `UserNotAuthorized` when absent, otherwise `registration.activate()`
marks the account active (modelled from the spec: activation sets `is_active`
and is idempotent). -/
def activate_account (st : AccountState) (activationKey : String) :
    Except AccountError AccountState :=
  match st.registrations.find? (fun r => r.activationKey == activationKey) with
  | none => .error .notAuthorized
  | some r =>
      .ok { st with
              users := st.users.map (fun u =>
                if u.username == r.username then { u with isActive := true } else u) }

/-- Look a user's `is_active` flag up by username. -/
def accountActive (st : AccountState) (username : String) : Option Bool :=
  (st.users.find? (fun u => u.username == username)).map (·.isActive)

end AccountApi

namespace ProfileApi

/-- Python `str` on a bool: `str(True) = "True"`, `str(False) = "False"`. -/
def pyStr (b : Bool) : String := if b then "True" else "False"

/-- A `UserOrgTag` row (user_api models, keyed by user, org and key). -/
structure OrgTag where
  userId : Nat
  org : String
  key : String
  value : String
  deriving Repr, DecidableEq

/-- What `analytics.track` does when called: succeed, raise an
`IntegrityError`, or raise some other exception.  The analytics sink is an
external collaborator; its outcome is an input of the model. -/
inductive AnalyticsOutcome where
  | ok
  | integrityError
  | otherError
  deriving Repr, DecidableEq

/-- The environment of `update_email_opt_in`: the user's `year_of_birth` from
`get_account_settings`, the current year, the `EMAIL_OPTIN_MINIMUM_AGE`
setting (default 13), whether Segment analytics is configured
(`FEATURES['SEGMENT_IO_LMS'] and SEGMENT_IO_LMS_KEY`), and the behaviour of
the analytics sink. -/
structure ProfileEnv where
  yearOfBirth : Option Int
  currentYear : Int
  minAge : Int
  segmentConfigured : Bool
  analyticsOutcome : AnalyticsOutcome
  deriving Repr, DecidableEq

/-- The error surfaced by the profile API after the `intercept_errors`
decorator (modelled from the spec: the decorator passes `ProfileRequestError`
through and wraps any other exception into `ProfileInternalError`). -/
inductive ProfileError where
  | requestError
  | internalError
  deriving Repr, DecidableEq

/-- The `of_age` expression of `update_email_opt_in` (profile.py lines
63-67): `year_of_birth is None or current_year - year_of_birth > minimum`. -/
def of_age (env : ProfileEnv) : Bool :=
  match env.yearOfBirth with
  | none => true
  | some y => decide (env.currentYear - y > env.minAge)

/-- The row filter of `UserOrgTag.objects.get_or_create(user=..., org=...,
key=...)`. -/
def tagMatch (userId : Nat) (org key : String) (t : OrgTag) : Bool :=
  t.userId == userId && t.org == org && t.key == key

/-- `UserOrgTag.objects.get_or_create` followed by `preference.value = v;
preference.save()`: overwrite the rows matching (user, org, key) — at most
one exists under the store's uniqueness constraint — or append a new row. -/
def upsertTag (tags : List OrgTag) (userId : Nat) (org key value : String) :
    List OrgTag :=
  if tags.any (tagMatch userId org key) then
    tags.map (fun t =>
      if tagMatch userId org key t then { t with value := value } else t)
  else
    tags ++ [{ userId := userId, org := org, key := key, value := value }]

/-- `update_email_opt_in` (profile.py lines 44-80).  Returns the store after
the call together with the call's outcome: the preference write persists even
when a later exception propagates (there is no enclosing transaction).
`of_age` is `year_of_birth is None or current_year - year_of_birth > minAge`;
the stored value is `str(optin and of_age)`.  The `try` block catches only
`IntegrityError` (logged and swallowed); any other exception escapes and is
wrapped by `intercept_errors` into `ProfileError.internalError`. -/
def update_email_opt_in (env : ProfileEnv) (tags : List OrgTag) (userId : Nat)
    (org : String) (optin : Bool) : List OrgTag × Except ProfileError Unit :=
  let tags' := upsertTag tags userId org "email-optin" (pyStr (optin && of_age env))
  if env.segmentConfigured then
    match env.analyticsOutcome with
    | .ok => (tags', .ok ())
    | .integrityError => (tags', .ok ())
    | .otherError => (tags', .error .internalError)
  else
    (tags', .ok ())

/-- The value stored for (user, org, "email-optin"), if any row matches
(the read side of `UserOrgTag.objects.get(...)` in the tests). -/
def optInValue (tags : List OrgTag) (userId : Nat) (org : String) :
    Option String :=
  (tags.find? (tagMatch userId org "email-optin")).map (·.value)

end ProfileApi

namespace LangPref

/-- `LANGUAGE_KEY` ('pref-lang') backs the session key used by the
middleware; the middleware reads and writes `request.session['django_language']`. -/
def SESSION_LANG_KEY : String := "django_language"

/-- Python dict membership test `k in session`. -/
def sessionHas (session : List (String × String)) (k : String) : Bool :=
  session.any (fun e => e.1 == k)

/-- Python dict assignment `session[k] = v`: overwrite an existing entry or
append a new one. -/
def sessionSet (session : List (String × String)) (k v : String) :
    List (String × String) :=
  if session.any (fun e => e.1 == k) then
    session.map (fun e => if e.1 == k then (e.1, v) else e)
  else
    session ++ [(k, v)]

/-- Python dict lookup `session.get(k)`. -/
def sessionGet (session : List (String × String)) (k : String) :
    Option String :=
  (session.find? (fun e => e.1 == k)).map (·.2)

/-- An incoming request as the middleware sees it: whether
`request.user.is_authenticated()`, the session dict, and the result of
`get_user_preference(request.user, LANGUAGE_KEY)` (the preferences API is an
external collaborator of this slice; `none` models an absent preference). -/
structure MwRequest where
  authenticated : Bool
  session : List (String × String)
  langPref : Option String
  deriving Repr, DecidableEq

/-- Python truthiness of `user_pref`: `None` and the empty string are falsy. -/
def pyTruthyOptStr : Option String → Bool
  | none => false
  | some s => s != ""

/-- `LanguagePreferenceMiddleware.process_request` (middleware.py lines
17-25): when the user is authenticated and `'django_language'` is not in the
session, look the language preference up and, if truthy, store it in the
session.  Returns the session after the request. -/
def process_request (r : MwRequest) : List (String × String) :=
  if r.authenticated && !sessionHas r.session SESSION_LANG_KEY then
    if pyTruthyOptStr r.langPref then
      sessionSet r.session SESSION_LANG_KEY (r.langPref.getD "")
    else
      r.session
  else
    r.session

end LangPref

namespace Commerce

/-- `OrderStatus.COMPLETE` (commerce/constants.py). -/
def ORDER_STATUS_COMPLETE : String := "Complete"
/-- `OrderStatus.OPEN` (commerce/constants.py). -/
def ORDER_STATUS_OPEN : String := "Open"

/-- Python `unicode(x)` on an optional string as used in `%` interpolation:
`None` prints as "None". -/
def pyShowOpt : Option String → String
  | none => "None"
  | some s => s

/-- The JSON body the external order API returns, as the view reads it with
`data.get(...)`: absent keys give `None`. -/
structure OrderJson where
  number : Option String
  status : Option String
  userMessage : Option String
  deriving Repr, DecidableEq

/-- Behaviour of `requests.post` against the external order API: the call
raises (network failure), or returns a response with a status code and a body
that either parses as JSON (`some`) or raises `JSONDecodeError` (`none`).
The external service is an opaque collaborator; its behaviour is an input. -/
inductive ExtApi where
  | networkError
  | response (statusCode : Nat) (json : Option OrderJson)
  deriving Repr, DecidableEq

/-- The requesting user (`request.user`). -/
structure CommerceUser where
  username : String
  email : String
  deriving Repr, DecidableEq

/-- Settings and collaborators of `PurchaseView.post`: the E-Commerce API
URL and signing key (empty string models an unset setting, matching Python
truthiness), the set of resolvable course ids, the SKU of the course's
default-mode (`honor`) entries with non-null SKU, and the external API. -/
structure CommerceEnv where
  ecommerceApiUrl : String
  ecommerceApiSigningKey : String
  knownCourses : List String
  skuOfCourse : List (String × String)
  extApi : ExtApi
  deriving Repr, DecidableEq

/-- An HTTP response from the view: status code and the `detail` message of
`DetailResponse`. -/
structure HttpResp where
  status : Nat
  detail : String
  deriving Repr, DecidableEq

/-- `ApiErrorResponse` (views.py lines 35-40): 503 with a fixed message. -/
def apiErrorResponse : HttpResp :=
  { status := 503, detail := "Call to E-Commerce API failed. Order creation failed." }

/-- `CourseEnrollment.enroll(user, course_key, True)` (external model):
record the (username, course) enrollment if not already present. -/
def enroll (enrollments : List (String × String)) (username courseId : String) :
    List (String × String) :=
  if enrollments.any (fun e => e.1 == username && e.2 == courseId) then
    enrollments
  else
    enrollments ++ [(username, courseId)]

/-- `PurchaseView.post` (views.py lines 90-181).  Takes the posted
`course_id` (`none` or empty models a missing/falsy field), the current
enrollment store, and returns the HTTP response plus the store afterwards. -/
def purchasePost (env : CommerceEnv) (user : CommerceUser)
    (courseId : Option String) (enrollments : List (String × String)) :
    HttpResp × List (String × String) :=
  match courseId with
  | none => ({ status := 406, detail := "course_id field is missing." }, enrollments)
  | some cid =>
    if cid == "" then
      ({ status := 406, detail := "course_id field is missing." }, enrollments)
    else if !env.knownCourses.contains cid then
      ({ status := 406, detail := "Unable to locate course matching " ++ cid ++ "." },
       enrollments)
    else if env.ecommerceApiUrl == "" || env.ecommerceApiSigningKey == "" then
      ({ status := 200,
         detail := "E-Commerce API not setup. Enrolled " ++ user.username ++
           " in " ++ cid ++ " directly." },
       enroll enrollments user.username cid)
    else
      match (env.skuOfCourse.find? (fun p => p.1 == cid)).map (·.2) with
      | none =>
          ({ status := 200,
             detail := "The honor mode for " ++ cid ++ " does not have a SKU. Enrolling " ++
               user.username ++ " directly." },
           enroll enrollments user.username cid)
      | some _sku =>
          match env.extApi with
          | .networkError => (apiErrorResponse, enrollments)
          | .response statusCode json =>
            match json with
            | none => (apiErrorResponse, enrollments)
            | some data =>
              if statusCode == 200 then
                if data.status == some ORDER_STATUS_COMPLETE then
                  ({ status := 200,
                     detail := "Order " ++ pyShowOpt data.number ++ " was completed." },
                   enrollments)
                else
                  ({ status := 202,
                     detail := "Order " ++ pyShowOpt data.number ++
                       " was created, but is not yet complete. User was enrolled." },
                   enroll enrollments user.username cid)
              else
                (apiErrorResponse, enrollments)

end Commerce

namespace ProfileImages

/-- `PROFILE_IMAGE_MAX_BYTES = 2.5 * 1024 * 1024 * 1024` (exactly
2684354560). -/
def PROFILE_IMAGE_MAX_BYTES : Nat := 2684354560

/-- The keys of the `image_types` dict in `validate_profile_image`. -/
inductive FType where
  | jpeg
  | png
  | gif
  deriving Repr, DecidableEq

/-- `image_types[ft]['extension']`. -/
def ftExtensions : FType → List String
  | .jpeg => [".jpeg", ".jpg"]
  | .png => [".png"]
  | .gif => [".gif"]

/-- `image_types[ft]['mimetypes']`. -/
def ftMimetypes : FType → List String
  | .jpeg => ["image/jpeg", "image/pjpeg"]
  | .png => ["image/png"]
  | .gif => ["image/gif"]

/-- `image_types[ft]['magic']`. -/
def ftMagic : FType → List String
  | .jpeg => ["ffd8"]
  | .png => ["89504e470d0a1a0a"]
  | .gif => ["474946383961", "474946383761"]

/-- The dict key as the string the function returns. -/
def ftName : FType → String
  | .jpeg => "jpeg"
  | .png => "png"
  | .gif => "gif"

/-- An uploaded file: name, the `size` attribute, content bytes (0-255) and
the read cursor.  `size` and content come from the upload machinery
(external); `pos` models the file object's cursor. -/
structure UploadedFile where
  name : String
  size : Nat
  data : List Nat
  pos : Nat
  deriving Repr, DecidableEq

/-- `file.read(n)`: return up to `n` bytes from the cursor and advance it by
the number of bytes returned. -/
def fileRead (f : UploadedFile) (n : Nat) : List Nat × UploadedFile :=
  ((f.data.drop f.pos).take n,
   { f with pos := min (f.pos + n) f.data.length })

/-- `file.seek(0)`. -/
def fileSeek0 (f : UploadedFile) : UploadedFile := { f with pos := 0 }

/-- One hex digit, lowercase, as produced by Python's `encode('hex')`. -/
def hexDigit (n : Nat) : Char :=
  if n < 10 then Char.ofNat (48 + n) else Char.ofNat (87 + n)

/-- A byte as two lowercase hex digits. -/
def hexByte (b : Nat) : String :=
  String.mk [hexDigit (b / 16 % 16), hexDigit (b % 16)]

/-- Python's `bytes.encode('hex')`: lowercase hex of every byte. -/
def hexEncode (bs : List Nat) : String := String.join (bs.map hexByte)

/-- The outcome of `validate_profile_image`: an `InvalidProfileImage`
exception was raised; an `InvalidProfileImage` instance was RETURNED (the
`return InvalidProfileImage(...)` statement on the unsupported-extension
branch, views.py line 65 — a normal return, not a raise); or the cleaned
file-type string was returned. -/
inductive VResult where
  | raised (msg : String)
  | returnedErrObject (msg : String)
  | filetype (t : String)
  deriving Repr, DecidableEq

/-- Python `str.lower()` on one character (ASCII range, as in filenames). -/
def pyLowerChar (c : Char) : Char :=
  if 'A' ≤ c && c ≤ 'Z' then Char.ofNat (c.toNat + 32) else c

/-- Python `str.lower()`. -/
def pyLower (s : String) : String := String.mk (s.data.map pyLowerChar)

/-- Python `str.endswith(suffix)`. -/
def pyEndsWith (s suffixStr : String) : Bool :=
  s.data.drop (s.data.length - suffixStr.data.length) == suffixStr.data

/-- `str(image_file.name).lower() endswith ext` for some extension of `ft`,
selecting the first matching dict key (at most one type can match, the
extension lists being pairwise suffix-incompatible). -/
def detectFiletype (filename : String) : Option FType :=
  [FType.jpeg, FType.png, FType.gif].find?
    (fun ft => (ftExtensions ft).any (fun ext => pyEndsWith filename ext))

/-- `len(headers[0])/2`: the number of bytes read for the magic check. -/
def magicHalfLen (ft : FType) : Nat := ((ftMagic ft).headD "").length / 2

/-- `validate_profile_image(image_file, content_type)` (profile_images
views.py lines 29-79): size checks, extension check (the failing branch
RETURNS the exception object instead of raising), mimetype check, magic-bytes
check reading `len(headers[0])/2` bytes, and `seek(0)` on success only.
Returns the outcome together with the file (its cursor) afterwards. -/
def validate_profile_image (f : UploadedFile) (contentType : String) :
    VResult × UploadedFile :=
  if f.size > PROFILE_IMAGE_MAX_BYTES then
    (.raised "file size limit exceeded", f)
  else if f.size < 4 then
    (.raised "file too small", f)
  else
    match detectFiletype (pyLower f.name) with
    | none => (.returnedErrObject "unsupported file extension", f)
    | some ft =>
      if !(ftMimetypes ft).contains contentType then
        (.raised "Mismatch between file type and mimetype", f)
      else
        let (bytes, f') := fileRead f (magicHalfLen ft)
        if !(ftMagic ft).contains (hexEncode bytes) then
          (.raised "Mismatch between file type and header", f')
        else
          (.filetype (ftName ft), fileSeek0 f')

end ProfileImages

namespace Fixtures

/-- An account store with no rows. -/
def emptyState : AccountApi.AccountState :=
  { users := [], registrations := [], profiles := [], keyNonce := 0 }

/-- A permissive e-mail format oracle for concrete runs. -/
def anyEmailOk : String → Bool := fun _ => true

/-- A requesting user for the purchase flow. -/
def bob : Commerce.CommerceUser := { username := "bob", email := "bob@example.com" }

/-- A commerce environment with one known course `c1` whose default mode has
SKU `SKU1`, parametrised by the external API behaviour. -/
def cenv (api : Commerce.ExtApi) : Commerce.CommerceEnv :=
  { ecommerceApiUrl := "http://ecom.example.com/api",
    ecommerceApiSigningKey := "secret",
    knownCourses := ["c1"],
    skuOfCourse := [("c1", "SKU1")],
    extApi := api }

/-- The PNG magic signature as bytes. -/
def pngMagic : List Nat := [0x89, 0x50, 0x4e, 0x47, 0x0d, 0x0a, 0x1a, 0x0a]

/-- A well-formed 10-byte PNG upload. -/
def goodPng : ProfileImages.UploadedFile :=
  { name := "a.png", size := 10, data := pngMagic ++ [1, 2], pos := 0 }

/-- A 3-byte upload. -/
def tinyFile : ProfileImages.UploadedFile :=
  { name := "a.png", size := 3, data := [1, 2, 3], pos := 0 }

/-- An upload one byte over the size cap. -/
def hugeFile : ProfileImages.UploadedFile :=
  { name := "a.png", size := 2684354561, data := [], pos := 0 }

/-- A `.png` upload whose content starts with the JPEG magic bytes. -/
def pngNameJpegBytes : ProfileImages.UploadedFile :=
  { name := "a.png", size := 4, data := [0xff, 0xd8, 0xff, 0xe0], pos := 0 }

/-- An upload with an unsupported `.txt` extension and acceptable size. -/
def badExtFile : ProfileImages.UploadedFile :=
  { name := "evil.txt", size := 10, data := [1, 2, 3, 4, 5, 6, 7, 8, 9, 10], pos := 0 }

/-- A `.gif` upload whose six leading bytes are not a GIF signature. -/
def gifMismatch : ProfileImages.UploadedFile :=
  { name := "b.gif", size := 6, data := [1, 2, 3, 4, 5, 6], pos := 0 }

end Fixtures

open AccountApi ProfileApi LangPref Commerce ProfileImages Fixtures

theorem sessionGet_append_new (k v : String) :
    ∀ s : List (String × String), s.any (fun e => e.1 == k) = false →
      sessionGet (s ++ [(k, v)]) k = some v := by
  intro s
  induction s with
  | nil =>
      intro _
      simp [sessionGet, List.find?]
  | cons e es ih =>
      intro h
      rw [List.any_cons, Bool.or_eq_false_iff] at h
      unfold sessionGet
      rw [List.cons_append, List.find?_cons_of_neg _ (by simp [h.1])]
      exact ih h.2

theorem sessionGet_map_set (k v : String) :
    ∀ s : List (String × String), s.any (fun e => e.1 == k) = true →
      sessionGet (s.map (fun e => if e.1 == k then (e.1, v) else e)) k = some v := by
  intro s
  induction s with
  | nil =>
      intro h
      simp at h
  | cons e es ih =>
      intro h
      cases he : (e.1 == k) with
      | true =>
          unfold sessionGet
          rw [List.map_cons, if_pos he]
          simp [List.find?, he]
      | false =>
          have ha : es.any (fun x => x.1 == k) = true := by
            rw [List.any_cons, he, Bool.false_or] at h
            exact h
          have hne : ¬(e.1 == k) = true := by simp [he]
          unfold sessionGet
          rw [List.map_cons, if_neg hne]
          simp only [List.find?, he]
          exact ih ha

theorem sessionGet_sessionSet (s : List (String × String)) (k v : String) :
    sessionGet (sessionSet s k v) k = some v := by
  unfold sessionSet
  cases hb : s.any (fun e => e.1 == k) with
  | true =>
      rw [if_pos rfl]
      exact sessionGet_map_set k v s hb
  | false =>
      rw [if_neg (by simp)]
      exact sessionGet_append_new k v s hb

/-- Claim C9: the language-preference middleware never changes a session that
already holds a language value; it leaves the session of an unauthenticated
requester untouched; and for an authenticated requester with no session
language and a stored (truthy) preference, it copies the preference into the
session. -/
theorem c9_language_middleware (r : MwRequest) :
    (sessionHas r.session SESSION_LANG_KEY = true →
       process_request r = r.session) ∧
    (r.authenticated = false → process_request r = r.session) ∧
    (∀ p, r.authenticated = true →
       sessionHas r.session SESSION_LANG_KEY = false →
       r.langPref = some p → p ≠ "" →
       process_request r = sessionSet r.session SESSION_LANG_KEY p ∧
       sessionGet (process_request r) SESSION_LANG_KEY = some p) := by
  refine ⟨?_, ?_, ?_⟩
  · intro h
    simp [process_request, h]
  · intro h
    simp [process_request, h]
  · intro p hauth hhas hpref hne
    have hstep : process_request r = sessionSet r.session SESSION_LANG_KEY p := by
      simp [process_request, hauth, hhas, hpref, pyTruthyOptStr, hne]
    exact ⟨hstep, by rw [hstep]; exact sessionGet_sessionSet _ _ _⟩

/-- Closed instance of C9: an authenticated request with empty session and
stored preference "fr" ends with session language "fr". -/
theorem c9_language_middleware_witness :
    process_request { authenticated := true, session := [], langPref := some "fr" } =
      sessionSet [] SESSION_LANG_KEY "fr" ∧
    sessionGet (process_request
      { authenticated := true, session := [], langPref := some "fr" })
      SESSION_LANG_KEY = some "fr" :=
  (c9_language_middleware
    { authenticated := true, session := [], langPref := some "fr" }).2.2 "fr"
    rfl rfl rfl (by decide)

/-- Claim C8: for every string `s`, validating the password `s` against the
username `s` fails with the password-invalid error: if the length is within
bounds the equality check fires, otherwise a length check fires, and every
branch raises `AccountPasswordInvalid`. -/
theorem c8_password_equal_username_rejected (s : String) :
    ∃ msg, validate_password s s = .error (.passwordInvalid msg) := by
  unfold validate_password
  split_ifs with h1 h2 h3
  · exact ⟨_, rfl⟩
  · exact ⟨_, rfl⟩
  · exact ⟨_, rfl⟩
  · simp at h3

/-- Closed instance of C8 at the string "bob". -/
theorem c8_password_equal_username_rejected_witness :
    ∃ msg, validate_password "bob" "bob" = .error (.passwordInvalid msg) :=
  c8_password_equal_username_rejected "bob"

/-- Claim C6: `validate_profile_image` rejects a 3-byte file, a file over the
size cap, and a `.png`/`image/png` file with JPEG leading bytes; a
well-formed PNG under the cap yields the token "png" with the cursor reset
to position 0. -/
theorem c6_validate_profile_image_cases :
    (validate_profile_image tinyFile "image/png").1 = .raised "file too small" ∧
    (validate_profile_image hugeFile "image/png").1 =
      .raised "file size limit exceeded" ∧
    (validate_profile_image pngNameJpegBytes "image/png").1 =
      .raised "Mismatch between file type and header" ∧
    validate_profile_image goodPng "image/png" =
      (.filetype "png", { goodPng with pos := 0 }) := by
  refine ⟨by decide, by decide, by decide, by decide⟩

/-- Claim C5 (code bug): on a file whose extension is unsupported but whose
size passes the checks, `validate_profile_image` does not raise: the
`return InvalidProfileImage(...)` statement makes it return the exception
object as a normal value, contradicting the function's own docstring. -/
theorem c5_bad_extension_returns_error_object :
    validate_profile_image badExtFile "text/plain" =
      (.returnedErrObject "unsupported file extension", badExtFile) := by
  decide

theorem optInValue_append_new (uid : Nat) (org v : String) :
    ∀ tags : List OrgTag, tags.any (tagMatch uid org "email-optin") = false →
      optInValue (tags ++ [OrgTag.mk uid org "email-optin" v]) uid org =
        some v := by
  intro tags
  induction tags with
  | nil =>
      intro _
      simp [optInValue, List.find?, tagMatch]
  | cons t ts ih =>
      intro h
      rw [List.any_cons, Bool.or_eq_false_iff] at h
      unfold optInValue
      rw [List.cons_append, List.find?_cons_of_neg _ (by simp [h.1])]
      exact ih h.2

theorem optInValue_map_set (uid : Nat) (org v : String) :
    ∀ tags : List OrgTag, tags.any (tagMatch uid org "email-optin") = true →
      optInValue (tags.map (fun t =>
        if tagMatch uid org "email-optin" t then { t with value := v } else t))
        uid org = some v := by
  intro tags
  induction tags with
  | nil =>
      intro h
      simp at h
  | cons t ts ih =>
      intro h
      cases ht : tagMatch uid org "email-optin" t with
      | true =>
          unfold optInValue
          rw [List.map_cons, if_pos ht]
          have ht' : tagMatch uid org "email-optin"
              { t with value := v } = true := ht
          simp only [List.find?, ht']
          rfl
      | false =>
          have ha : ts.any (tagMatch uid org "email-optin") = true := by
            rw [List.any_cons, ht, Bool.false_or] at h
            exact h
          have hne : ¬tagMatch uid org "email-optin" t = true := by simp [ht]
          unfold optInValue
          rw [List.map_cons, if_neg hne]
          simp only [List.find?, ht]
          exact ih ha

theorem optInValue_upsertTag (tags : List OrgTag) (uid : Nat) (org v : String) :
    optInValue (upsertTag tags uid org "email-optin" v) uid org = some v := by
  unfold upsertTag
  cases hb : tags.any (tagMatch uid org "email-optin") with
  | true =>
      rw [if_pos rfl]
      exact optInValue_map_set uid org v tags hb
  | false =>
      rw [if_neg (by simp)]
      exact optInValue_append_new uid org v tags hb

theorem upsertTag_match_value (tags : List OrgTag) (uid : Nat) (org v : String) :
    ∀ t ∈ upsertTag tags uid org "email-optin" v,
      tagMatch uid org "email-optin" t = true → t.value = v := by
  intro t ht hpm
  unfold upsertTag at ht
  cases hb : tags.any (tagMatch uid org "email-optin") with
  | true =>
      rw [hb, if_pos rfl] at ht
      obtain ⟨s, _, hfs⟩ := List.mem_map.mp ht
      cases hps : tagMatch uid org "email-optin" s with
      | true =>
          rw [if_pos hps] at hfs
          rw [← hfs]
      | false =>
          rw [if_neg (by simp [hps])] at hfs
          rw [← hfs] at hpm
          rw [hps] at hpm
          exact absurd hpm (by simp)
  | false =>
      rw [hb, if_neg (by simp)] at ht
      rcases List.mem_append.mp ht with hin | hnew
      · have hall := List.any_eq_false.mp hb
        exact absurd hpm (by simpa using hall t hin)
      · rw [List.mem_singleton.mp hnew]

theorem update_email_opt_in_fst (env : ProfileEnv) (tags : List OrgTag)
    (uid : Nat) (org : String) (optin : Bool) :
    (update_email_opt_in env tags uid org optin).1 =
      upsertTag tags uid org "email-optin" (pyStr (optin && of_age env)) := by
  unfold update_email_opt_in
  cases env.segmentConfigured
  · rfl
  · cases env.analyticsOutcome <;> rfl

/-- Claim C4: `update_email_opt_in` stores `str(optin and of_age)` with
`of_age = (year_of_birth is None) or (current_year - year_of_birth >
minimum_age)`: with no year of birth and optin true it stores "True"; with
computed age below the minimum it stores "False" regardless of the requested
value; and a second call with a different value leaves only the latest value
stored for the (user, org) pair. -/
theorem c4_update_email_opt_in_stores (env : ProfileEnv) (tags : List OrgTag)
    (uid : Nat) (org : String) (optin : Bool) :
    optInValue (update_email_opt_in env tags uid org optin).1 uid org =
      some (pyStr (optin && of_age env)) ∧
    (env.yearOfBirth = none → optin = true →
      optInValue (update_email_opt_in env tags uid org optin).1 uid org =
        some "True") ∧
    (∀ y, env.yearOfBirth = some y → env.currentYear - y < env.minAge →
      optInValue (update_email_opt_in env tags uid org optin).1 uid org =
        some "False") ∧
    (∀ optin2, optin2 ≠ optin →
      optInValue (update_email_opt_in env
          (update_email_opt_in env tags uid org optin).1 uid org optin2).1
          uid org = some (pyStr (optin2 && of_age env)) ∧
      (∀ t ∈ (update_email_opt_in env
          (update_email_opt_in env tags uid org optin).1 uid org optin2).1,
        tagMatch uid org "email-optin" t = true →
        t.value = pyStr (optin2 && of_age env))) := by
  refine ⟨?_, ?_, ?_, ?_⟩
  · rw [update_email_opt_in_fst]
    exact optInValue_upsertTag tags uid org _
  · intro hyob hopt
    rw [update_email_opt_in_fst]
    have hage : of_age env = true := by simp [of_age, hyob]
    rw [hopt, hage]
    exact optInValue_upsertTag tags uid org _
  · intro y hyob hbelow
    rw [update_email_opt_in_fst]
    have hage : of_age env = false := by
      simp only [of_age, hyob]
      simp only [decide_eq_false_iff_not, not_lt]
      omega
    rw [hage, Bool.and_false]
    exact optInValue_upsertTag tags uid org _
  · intro optin2 _
    constructor
    · rw [update_email_opt_in_fst]
      exact optInValue_upsertTag _ uid org _
    · intro t ht hpm
      rw [update_email_opt_in_fst] at ht
      exact upsertTag_match_value _ uid org _ t ht hpm

/-- Closed instance of C4: year of birth unset, opting in stores "True",
then opting out leaves only "False" stored. -/
theorem c4_update_email_opt_in_stores_witness :
    optInValue (update_email_opt_in
        { yearOfBirth := none, currentYear := 2015, minAge := 13,
          segmentConfigured := false, analyticsOutcome := .ok }
        [] 7 "edX" true).1 7 "edX" = some "True" ∧
    optInValue (update_email_opt_in
        { yearOfBirth := none, currentYear := 2015, minAge := 13,
          segmentConfigured := false, analyticsOutcome := .ok }
        (update_email_opt_in
          { yearOfBirth := none, currentYear := 2015, minAge := 13,
            segmentConfigured := false, analyticsOutcome := .ok }
          [] 7 "edX" true).1 7 "edX" false).1 7 "edX" = some "False" := by
  refine ⟨?_, ?_⟩
  · exact (c4_update_email_opt_in_stores
      { yearOfBirth := none, currentYear := 2015, minAge := 13,
        segmentConfigured := false, analyticsOutcome := .ok }
      [] 7 "edX" true).2.1 rfl rfl
  · exact ((c4_update_email_opt_in_stores
      { yearOfBirth := none, currentYear := 2015, minAge := 13,
        segmentConfigured := false, analyticsOutcome := .ok }
      [] 7 "edX" true).2.2.2 false (by decide)).1

/-- Counterexample to claim C7 as stated: with analytics configured and the
analytics call raising an exception that is not an `IntegrityError`,
`update_email_opt_in` does not return normally — the exception escapes the
`except IntegrityError` clause and surfaces (wrapped as
`ProfileInternalError`), even though the preference write has completed. -/
theorem c7_counterexample :
    (update_email_opt_in
        { yearOfBirth := none, currentYear := 2015, minAge := 13,
          segmentConfigured := true, analyticsOutcome := .otherError }
        [] 1 "edX" true).2 = .error .internalError ∧
    optInValue (update_email_opt_in
        { yearOfBirth := none, currentYear := 2015, minAge := 13,
          segmentConfigured := true, analyticsOutcome := .otherError }
        [] 1 "edX" true).1 1 "edX" = some "True" :=
  ⟨rfl, rfl⟩

/-- Claim C7 as amended: the preference write always completes before the
analytics emission; an emission failure that is an `IntegrityError` is caught
and swallowed (normal return), while any other emission failure propagates
out of `update_email_opt_in` as `ProfileInternalError` — the stored value
being kept in either case. -/
theorem c7_analytics_failure (env : ProfileEnv) (tags : List OrgTag)
    (uid : Nat) (org : String) (optin : Bool)
    (hseg : env.segmentConfigured = true) :
    optInValue (update_email_opt_in env tags uid org optin).1 uid org =
      some (pyStr (optin && of_age env)) ∧
    (env.analyticsOutcome = .integrityError →
      (update_email_opt_in env tags uid org optin).2 = .ok ()) ∧
    (env.analyticsOutcome = .otherError →
      (update_email_opt_in env tags uid org optin).2 =
        .error .internalError) := by
  refine ⟨?_, ?_, ?_⟩
  · rw [update_email_opt_in_fst]
    exact optInValue_upsertTag tags uid org _
  · intro hout
    simp [update_email_opt_in, hseg, hout]
  · intro hout
    simp [update_email_opt_in, hseg, hout]

/-- Claim C2 as amended: for a known course with a SKU'd default mode and an
external API answering HTTP 200, a returned status equal to "Complete" gives
a 200 success response without local enrollment, and any other returned
status enrolls the user locally and gives a 202 response whose body carries
the order number (the order status appears in the server log only, not in
the response). -/
theorem c2_purchase_http200 (env : CommerceEnv) (user : CommerceUser)
    (cid : String) (enrollments : List (String × String)) (d : OrderJson)
    (hcid : cid ≠ "") (hknown : env.knownCourses.contains cid = true)
    (hurl : env.ecommerceApiUrl ≠ "") (hkey : env.ecommerceApiSigningKey ≠ "")
    (hsku : (env.skuOfCourse.find? (fun p => p.1 == cid)).isSome = true)
    (hapi : env.extApi = .response 200 (some d)) :
    (d.status = some ORDER_STATUS_COMPLETE →
      purchasePost env user (some cid) enrollments =
        ({ status := 200,
           detail := "Order " ++ pyShowOpt d.number ++ " was completed." },
         enrollments)) ∧
    (d.status ≠ some ORDER_STATUS_COMPLETE →
      purchasePost env user (some cid) enrollments =
        ({ status := 202,
           detail := "Order " ++ pyShowOpt d.number ++
             " was created, but is not yet complete. User was enrolled." },
         enroll enrollments user.username cid)) := by
  obtain ⟨pr, hfind⟩ := Option.isSome_iff_exists.mp hsku
  have hmem : cid ∈ env.knownCourses := by simpa using hknown
  have hc : (cid == "") = false := beq_eq_false_iff_ne.mpr hcid
  have hu : (env.ecommerceApiUrl == "") = false := beq_eq_false_iff_ne.mpr hurl
  have hk : (env.ecommerceApiSigningKey == "") = false :=
    beq_eq_false_iff_ne.mpr hkey
  constructor
  · intro hst
    simp [purchasePost, hc, hknown, hmem, hu, hk, hfind, hapi, hst,
      ORDER_STATUS_COMPLETE]
  · intro hst
    have hst' : (d.status == some ORDER_STATUS_COMPLETE) = false := by
      simpa using hst
    simp [purchasePost, hc, hknown, hmem, hu, hk, hfind, hapi, hst']

/-- Closed instance of the amended C2, both branches, at a concrete course,
user and order. -/
theorem c2_purchase_http200_witness :
    purchasePost (cenv (.response 200 (some ⟨some "ORD-1", some "Complete", none⟩)))
        bob (some "c1") [] =
      ({ status := 200, detail := "Order ORD-1 was completed." }, []) ∧
    purchasePost (cenv (.response 200 (some ⟨some "ORD-1", some "Open", none⟩)))
        bob (some "c1") [] =
      ({ status := 202,
         detail := "Order ORD-1 was created, but is not yet complete. User was enrolled." },
       [("bob", "c1")]) := by
  constructor
  · exact (c2_purchase_http200 (cenv (.response 200 (some ⟨some "ORD-1", some "Complete", none⟩)))
      bob "c1" [] ⟨some "ORD-1", some "Complete", none⟩
      (by decide) rfl (by decide) (by decide) rfl rfl).1 rfl
  · exact (c2_purchase_http200 (cenv (.response 200 (some ⟨some "ORD-1", some "Open", none⟩)))
      bob "c1" [] ⟨some "ORD-1", some "Open", none⟩
      (by decide) rfl (by decide) (by decide) rfl rfl).2 (by decide)

/-- Counterexample to claim C2 as stated: two external responses differing
only in the returned order status ("Open" vs "Paid") produce identical 202
responses, so the response does not carry the status; the status string does
not occur anywhere in the response body. -/
theorem c2_status_not_in_response :
    purchasePost (cenv (.response 200 (some ⟨some "ORD-1", some "Open", none⟩)))
        bob (some "c1") [] =
      purchasePost (cenv (.response 200 (some ⟨some "ORD-1", some "Paid", none⟩)))
        bob (some "c1") [] ∧
    (purchasePost (cenv (.response 200 (some ⟨some "ORD-1", some "Open", none⟩)))
        bob (some "c1") []).1.status = 202 ∧
    ¬ List.IsInfix "Open".data
      (purchasePost (cenv (.response 200 (some ⟨some "ORD-1", some "Open", none⟩)))
        bob (some "c1") []).1.detail.data := by
  refine ⟨rfl, rfl, by decide⟩

/-- Claim C3: for a known course with a SKU'd default mode, a network
failure, a non-JSON response body, or a non-200 HTTP status from the external
order API all yield the 503 `ApiErrorResponse` and leave the enrollment
store untouched. -/
theorem c3_purchase_api_failure (env : CommerceEnv) (user : CommerceUser)
    (cid : String) (enrollments : List (String × String))
    (hcid : cid ≠ "") (hknown : env.knownCourses.contains cid = true)
    (hurl : env.ecommerceApiUrl ≠ "") (hkey : env.ecommerceApiSigningKey ≠ "")
    (hsku : (env.skuOfCourse.find? (fun p => p.1 == cid)).isSome = true)
    (hfail : env.extApi = .networkError ∨
      (∃ c, env.extApi = .response c none) ∨
      (∃ c d, env.extApi = .response c (some d) ∧ c ≠ 200)) :
    purchasePost env user (some cid) enrollments =
      (apiErrorResponse, enrollments) := by
  obtain ⟨pr, hfind⟩ := Option.isSome_iff_exists.mp hsku
  have hmem : cid ∈ env.knownCourses := by simpa using hknown
  have hc : (cid == "") = false := beq_eq_false_iff_ne.mpr hcid
  have hu : (env.ecommerceApiUrl == "") = false := beq_eq_false_iff_ne.mpr hurl
  have hk : (env.ecommerceApiSigningKey == "") = false :=
    beq_eq_false_iff_ne.mpr hkey
  rcases hfail with h | ⟨c, h⟩ | ⟨c, d, h, hne⟩
  · simp [purchasePost, hc, hknown, hmem, hu, hk, hfind, h]
  · simp [purchasePost, hc, hknown, hmem, hu, hk, hfind, h]
  · have hc200 : (c == 200) = false := beq_eq_false_iff_ne.mpr hne
    simp [purchasePost, hc, hknown, hmem, hu, hk, hfind, h, hc200]

/-- Closed instances of C3: network failure, invalid JSON, and HTTP 500 all
give the 503 response with no enrollment. -/
theorem c3_purchase_api_failure_witness :
    purchasePost (cenv .networkError) bob (some "c1") [] =
      (apiErrorResponse, []) ∧
    purchasePost (cenv (.response 200 none)) bob (some "c1") [] =
      (apiErrorResponse, []) ∧
    purchasePost (cenv (.response 500 (some ⟨none, none, some "oops"⟩)))
        bob (some "c1") [] = (apiErrorResponse, []) := by
  refine ⟨?_, ?_, ?_⟩
  · exact c3_purchase_api_failure (cenv .networkError) bob "c1" []
      (by decide) rfl (by decide) (by decide) rfl (Or.inl rfl)
  · exact c3_purchase_api_failure (cenv (.response 200 none)) bob "c1" []
      (by decide) rfl (by decide) (by decide) rfl (Or.inr (Or.inl ⟨200, rfl⟩))
  · exact c3_purchase_api_failure (cenv (.response 500 (some ⟨none, none, some "oops"⟩)))
      bob "c1" [] (by decide) rfl (by decide) (by decide) rfl
      (Or.inr (Or.inr ⟨500, ⟨none, none, some "oops"⟩, rfl, by decide⟩))

/-- Closed instance of the amended C7: with analytics raising an
`IntegrityError`, the call returns normally and the value is stored. -/
theorem c7_analytics_failure_witness :
    optInValue (update_email_opt_in
        { yearOfBirth := none, currentYear := 2015, minAge := 13,
          segmentConfigured := true, analyticsOutcome := .integrityError }
        [] 1 "edX" true).1 1 "edX" = some "True" ∧
    (update_email_opt_in
        { yearOfBirth := none, currentYear := 2015, minAge := 13,
          segmentConfigured := true, analyticsOutcome := .integrityError }
        [] 1 "edX" true).2 = .ok () :=
  ⟨(c7_analytics_failure
      { yearOfBirth := none, currentYear := 2015, minAge := 13,
        segmentConfigured := true, analyticsOutcome := .integrityError }
      [] 1 "edX" true rfl).1,
   (c7_analytics_failure
      { yearOfBirth := none, currentYear := 2015, minAge := 13,
        segmentConfigured := true, analyticsOutcome := .integrityError }
      [] 1 "edX" true rfl).2.1 rfl⟩

/-- Claim C10: when the size, extension and content-type checks pass but the
leading bytes do not match the expected magic signature,
`validate_profile_image` raises and leaves the read cursor advanced past the
header bytes it consumed — the `seek(0)` runs only on the success path, so
after a magic-bytes rejection the file is not positioned at the start. -/
theorem c10_magic_mismatch_cursor (f : UploadedFile) (ct : String) (ft : FType)
    (hpos : f.pos = 0) (hsz : f.size = f.data.length)
    (hmax : f.size ≤ PROFILE_IMAGE_MAX_BYTES) (hmin : 4 ≤ f.size)
    (hft : detectFiletype (pyLower f.name) = some ft)
    (hmime : (ftMimetypes ft).contains ct = true)
    (hmagic : (ftMagic ft).contains
      (hexEncode (f.data.take (magicHalfLen ft))) = false) :
    (validate_profile_image f ct).1 =
      .raised "Mismatch between file type and header" ∧
    (validate_profile_image f ct).2.pos =
      min (magicHalfLen ft) f.data.length ∧
    (validate_profile_image f ct).2.pos ≠ 0 := by
  have h1 : ¬f.size > PROFILE_IMAGE_MAX_BYTES := by omega
  have h2 : ¬f.size < 4 := by omega
  have heq : validate_profile_image f ct =
      (.raised "Mismatch between file type and header",
       { f with pos := min (0 + magicHalfLen ft) f.data.length }) := by
    have hmime' : ct ∈ ftMimetypes ft := by simpa using hmime
    have hmagic' : hexEncode (List.take (magicHalfLen ft) f.data) ∉ ftMagic ft := by
      simpa using hmagic
    simp [validate_profile_image, fileRead, if_neg h1, if_neg h2, hft, hmime',
      hpos, List.drop_zero, hmagic']
  have hlen : 2 ≤ magicHalfLen ft := by cases ft <;> decide
  refine ⟨by rw [heq], by rw [heq]; simp, ?_⟩
  rw [heq]
  simp only [Nat.zero_add]
  have hdl : 4 ≤ f.data.length := by omega
  omega

/-- Closed instance of C10: a `.gif` upload whose leading bytes are not a GIF
signature is rejected with the cursor left at byte 6, not at the start. -/
theorem c10_magic_mismatch_cursor_witness :
    (validate_profile_image gifMismatch "image/gif").1 =
      .raised "Mismatch between file type and header" ∧
    (validate_profile_image gifMismatch "image/gif").2.pos =
      min (magicHalfLen .gif) gifMismatch.data.length ∧
    (validate_profile_image gifMismatch "image/gif").2.pos ≠ 0 :=
  c10_magic_mismatch_cursor gifMismatch "image/gif" .gif rfl rfl
    (by decide) (by decide) (by decide) rfl (by decide)

theorem validate_username_ok (u : String) (h1 : 2 ≤ u.length)
    (h2 : u.length ≤ 30) (h3 : u.data.all slugChar = true) :
    validate_username u = .ok () := by
  have hs : djangoValidateSlug u = true := by
    unfold djangoValidateSlug
    rw [h3]
    simp
    omega
  unfold validate_username
  rw [if_neg (by simp only [USERNAME_MIN_LENGTH]; omega),
      if_neg (by simp only [USERNAME_MAX_LENGTH]; omega),
      if_neg (by simp [hs])]

theorem validate_password_ok (p u : String) (h1 : 2 ≤ p.length)
    (h2 : p.length ≤ 75) (hne : p ≠ u) :
    validate_password p u = .ok () := by
  unfold validate_password
  rw [if_neg (by simp only [PASSWORD_MIN_LENGTH]; omega),
      if_neg (by simp only [PASSWORD_MAX_LENGTH]; omega),
      if_neg (by simp [hne])]

theorem validate_email_ok (emailFmtOk : String → Bool) (e : String)
    (h1 : 3 ≤ e.length) (h2 : e.length ≤ 254) (h3 : emailFmtOk e = true) :
    validate_email emailFmtOk e = .ok () := by
  unfold validate_email
  rw [if_neg (by simp only [EMAIL_MIN_LENGTH]; omega),
      if_neg (by simp only [EMAIL_MAX_LENGTH]; omega),
      if_neg (by simp [h3])]

theorem genActivationKey_ne_empty (n : Nat) : genActivationKey n ≠ "" := by
  unfold genActivationKey
  intro h
  have hlen := congrArg String.length h
  rw [String.length_append] at hlen
  have h4 : ("key-" : String).length = 4 := rfl
  have h0 : ("" : String).length = 0 := rfl
  omega

theorem create_account_ok (emailFmtOk : String → Bool) (st : AccountState)
    (u p e : String)
    (hvu : validate_username u = .ok ())
    (hvp : validate_password p u = .ok ())
    (hve : validate_email emailFmtOk e = .ok ())
    (hfresh : st.users.any (fun x => x.username == u || x.email == e) = false) :
    create_account emailFmtOk st u p e =
      .ok (genActivationKey st.keyNonce,
        { users := UserRec.mk u e (hashPassword p) false :: st.users,
          registrations :=
            RegRec.mk u (genActivationKey st.keyNonce) :: st.registrations,
          profiles := u :: st.profiles,
          keyNonce := st.keyNonce + 1 }) := by
  simp [create_account, hvu, hvp, hve, hfresh]
  rfl

/-- Claim C1: for every (username, password, email) triple satisfying the
validation constraints (username 2-30 slug characters, password 2-75
characters and different from the username, email 3-254 characters in a
format the e-mail validator accepts), `create_account` on a store where the
username, the e-mail and a registration for the username are fresh succeeds
with a non-empty activation key; the created account is inactive; activating
with any other key leaves it inactive; and activating with the returned key
makes it active. -/
theorem c1_create_account_lifecycle (emailFmtOk : String → Bool)
    (st : AccountState) (u p e : String)
    (hu1 : 2 ≤ u.length) (hu2 : u.length ≤ 30) (hu3 : u.data.all slugChar = true)
    (hp1 : 2 ≤ p.length) (hp2 : p.length ≤ 75) (hpne : p ≠ u)
    (he1 : 3 ≤ e.length) (he2 : e.length ≤ 254) (he3 : emailFmtOk e = true)
    (hufresh : ∀ x ∈ st.users, x.username ≠ u ∧ x.email ≠ e)
    (hregfresh : ∀ r ∈ st.registrations, r.username ≠ u) :
    ∃ key st',
      create_account emailFmtOk st u p e = .ok (key, st') ∧
      key ≠ "" ∧
      accountActive st' u = some false ∧
      (∀ k st'', k ≠ key → activate_account st' k = .ok st'' →
        accountActive st'' u = some false) ∧
      (∃ st'', activate_account st' key = .ok st'' ∧
        accountActive st'' u = some true) := by
  have hfresh : st.users.any (fun x => x.username == u || x.email == e) = false := by
    rw [List.any_eq_false]
    intro x hx
    have hx1 := (hufresh x hx).1
    have hx2 := (hufresh x hx).2
    simp [hx1, hx2]
  have hcreate := create_account_ok emailFmtOk st u p e
    (validate_username_ok u hu1 hu2 hu3)
    (validate_password_ok p u hp1 hp2 hpne)
    (validate_email_ok emailFmtOk e he1 he2 he3)
    hfresh
  refine ⟨genActivationKey st.keyNonce, _, hcreate,
    genActivationKey_ne_empty st.keyNonce, ?_, ?_, ?_⟩
  · simp [accountActive, List.find?]
  · intro k st'' hkne hact
    have hkey : (genActivationKey st.keyNonce == k) = false :=
      beq_eq_false_iff_ne.mpr (Ne.symm hkne)
    unfold activate_account at hact
    simp only [List.find?, hkey] at hact
    cases hfind : List.find? (fun r => r.activationKey == k) st.registrations with
    | none =>
        rw [hfind] at hact
        exact absurd hact (by simp)
    | some r =>
        rw [hfind] at hact
        have hrne : u ≠ r.username :=
          Ne.symm (hregfresh r (List.mem_of_find?_eq_some hfind))
        have hbe : (u == r.username) = false := beq_eq_false_iff_ne.mpr hrne
        injection hact with hact'
        rw [← hact']
        simp [accountActive, List.find?, hbe]
  · cases hact : activate_account
        { users := UserRec.mk u e (hashPassword p) false :: st.users,
          registrations :=
            RegRec.mk u (genActivationKey st.keyNonce) :: st.registrations,
          profiles := u :: st.profiles,
          keyNonce := st.keyNonce + 1 } (genActivationKey st.keyNonce) with
    | error err =>
        exfalso
        revert hact
        simp [activate_account, List.find?]
    | ok st'' =>
        refine ⟨st'', rfl, ?_⟩
        unfold activate_account at hact
        simp only [List.find?, beq_self_eq_true] at hact
        injection hact with hact'
        rw [← hact']
        simp [accountActive, List.find?]

/-- Closed instance of C1 at ("alice", "pw123", "a@b.co") on the empty
store. -/
theorem c1_create_account_lifecycle_witness :
    ∃ key st',
      create_account anyEmailOk emptyState "alice" "pw123" "a@b.co" =
        .ok (key, st') ∧
      key ≠ "" ∧
      accountActive st' "alice" = some false ∧
      (∀ k st'', k ≠ key → activate_account st' k = .ok st'' →
        accountActive st'' "alice" = some false) ∧
      (∃ st'', activate_account st' key = .ok st'' ∧
        accountActive st'' "alice" = some true) :=
  c1_create_account_lifecycle anyEmailOk emptyState "alice" "pw123" "a@b.co"
    (by decide) (by decide) (by decide) (by decide) (by decide) (by decide)
    (by decide) (by decide) rfl (by simp [emptyState]) (by simp [emptyState])
